import Mathlib

/-!
Shallow embedding of the AreaBites client state module (`src/App.tsx`).

The application holds four client-side collections (food items, cart,
orders, notifications) inside `AppProvider` and mutates them only through
the callbacks `addToCart`, `updateCartQuantity`, `removeFromCart`,
`clearCart`, `placeOrder`, `updateOrderStatus`, `clearNotifications`, and
the two realtime subscription handlers (orders INSERT/UPDATE and
food_items INSERT).  Each callback is embedded here as a pure function on
an explicit `AppState`; the external database write of `placeOrder` and
`updateOrderStatus` is modelled by a boolean acknowledgment flag, since
the code branches only on whether the write returned an error.

JavaScript numbers are embedded as `Int` (every price and quantity the
program manipulates is an integer: quantities start at 1 and change by
±1 or are set from integer UI state, and the spec's price examples are
integers), and timestamps as opaque strings, matching the ISO strings
the code passes around.
-/

set_option autoImplicit false

namespace AreaBites

/-- Order status enumeration.  `types.ts` is not in the sources; the five
values are taken from the literal list in `src/App.tsx` line 646:
Pending, Preparing, Out for Delivery, Delivered, Cancelled. -/
inductive OrderStatus where
  | Pending
  | Preparing
  | OutForDelivery
  | Delivered
  | Cancelled
deriving DecidableEq, Repr

/-- Payment method enumeration, from the literal list in `src/App.tsx`
line 547: Cash on Delivery, Credit Card, UPI. -/
inductive PaymentMethod where
  | CashOnDelivery
  | CreditCard
  | UPI
deriving DecidableEq, Repr

/-- Customer details, from the checkout form fields (`src/App.tsx` lines
507, 528-541): name, phone, address required, email optional. -/
structure CustomerDetails where
  name : String
  phone : String
  address : String
  email : Option String
deriving DecidableEq, Repr

/-- Food item, with the fields produced by `mapFoodItemFromDb`
(`src/App.tsx` lines 38-47). -/
structure FoodItem where
  id : String
  name : String
  description : String
  size : String
  price : Int
  image1Url : String
  image2Url : String
  videoUrl : Option String
deriving DecidableEq, Repr

/-- Cart line item: a food item plus a quantity, as built by `addToCart`
via the spread `{ ...item, quantity: 1 }` (`src/App.tsx` line 189). -/
structure CartItem extends FoodItem where
  quantity : Int
deriving DecidableEq, Repr

/-- Order as held client-side, with the fields produced by
`mapOrderFromDb` (`src/App.tsx` lines 50-59). -/
structure Order where
  id : String
  customer : CustomerDetails
  items : List CartItem
  total : Int
  paymentMethod : PaymentMethod
  timestamp : String
  status : OrderStatus
  status_updated_at : Option String
deriving DecidableEq, Repr

/-- A row of the `orders` table as delivered by the realtime channel
(`payload.new`), with the database column names used by
`mapOrderFromDb`. -/
structure DbOrderRow where
  id : String
  customer_details : CustomerDetails
  items : List CartItem
  total : Int
  payment_method : PaymentMethod
  created_at : String
  status : OrderStatus
  status_updated_at : Option String
deriving DecidableEq, Repr

/-- A row of the `food_items` table as delivered by the realtime channel,
with the database column names used by `mapFoodItemFromDb`. -/
structure DbFoodRow where
  id : String
  name : String
  description : String
  size : String
  price : Int
  image1_url : String
  image2_url : String
  video_url : Option String
deriving DecidableEq, Repr

/-- `mapOrderFromDb` (`src/App.tsx` lines 50-59): renames database columns
to the frontend field names. -/
def mapOrderFromDb (order : DbOrderRow) : Order :=
  { id := order.id
    customer := order.customer_details
    items := order.items
    total := order.total
    paymentMethod := order.payment_method
    timestamp := order.created_at
    status := order.status
    status_updated_at := order.status_updated_at }

/-- `mapFoodItemFromDb` (`src/App.tsx` lines 38-47). -/
def mapFoodItemFromDb (item : DbFoodRow) : FoodItem :=
  { id := item.id
    name := item.name
    description := item.description
    size := item.size
    price := item.price
    image1Url := item.image1_url
    image2Url := item.image2_url
    videoUrl := item.video_url }

/-- The client-side state held by `AppProvider` (`src/App.tsx` lines
64-68). -/
structure AppState where
  loading : Bool
  foodItems : List FoodItem
  cart : List CartItem
  orders : List Order
  notifications : List Order
deriving DecidableEq, Repr

/-- `addToCart` (`src/App.tsx` lines 181-191): if an entry with the item's
id exists, increment the quantity of every entry with that id; otherwise
append a new entry with quantity 1. -/
def addToCart (item : FoodItem) (prev : List CartItem) : List CartItem :=
  if (prev.find? (fun cartItem => cartItem.id == item.id)).isSome then
    prev.map (fun cartItem =>
      if cartItem.id == item.id then
        { cartItem with quantity := cartItem.quantity + 1 }
      else cartItem)
  else
    prev ++ [{ toFoodItem := item, quantity := 1 }]

/-- `updateCartQuantity` (`src/App.tsx` lines 193-199): set the quantity
of every entry with the given id, then drop every entry whose quantity is
not positive. -/
def updateCartQuantity (itemId : String) (quantity : Int)
    (prev : List CartItem) : List CartItem :=
  (prev.map (fun item =>
      if item.id == itemId then { item with quantity := quantity } else item)
    ).filter (fun item => item.quantity > 0)

/-- `removeFromCart` (`src/App.tsx` lines 201-203). -/
def removeFromCart (itemId : String) (prev : List CartItem) : List CartItem :=
  prev.filter (fun item => item.id != itemId)

/-- `clearCart` (`src/App.tsx` lines 206-208). -/
def clearCart (_prev : List CartItem) : List CartItem := []

/-- The cart total, `cart.reduce((sum, item) => sum + item.price *
item.quantity, 0)`, computed identically in `placeOrder` (line 212) and
`CartView` (line 446). -/
def cartTotal (cart : List CartItem) : Int :=
  cart.foldl (fun sum item => sum + item.price * item.quantity) 0

/-- The row `placeOrder` sends to `supabase.from('orders').insert(...)`
(`src/App.tsx` lines 213-219): customer details, the current cart as the
item snapshot, the computed total, the payment method, and the literal
default status Pending.  The database assigns id and created_at. -/
structure OrderInsertRow where
  customer_details : CustomerDetails
  items : List CartItem
  total : Int
  payment_method : PaymentMethod
  status : OrderStatus
deriving DecidableEq, Repr

/-- The insert payload built by `placeOrder` from the cart it closed over
(`src/App.tsx` lines 212-219). -/
def placeOrderRow (cart : List CartItem) (customer : CustomerDetails)
    (paymentMethod : PaymentMethod) : OrderInsertRow :=
  { customer_details := customer
    items := cart
    total := cartTotal cart
    payment_method := paymentMethod
    status := OrderStatus.Pending }

/-- `placeOrder` (`src/App.tsx` lines 210-227).  The database write is
modelled by `writeOk`: the code inspects only whether the insert returned
an error.  On an error it alerts and leaves the state untouched; on
success it runs `setCart([])` and nothing else.  The returned option is
the acknowledged row, `none` when the write failed. -/
def placeOrder (customer : CustomerDetails) (paymentMethod : PaymentMethod)
    (writeOk : Bool) (st : AppState) : AppState × Option OrderInsertRow :=
  let row := placeOrderRow st.cart customer paymentMethod
  if writeOk then ({ st with cart := [] }, some row) else (st, none)

/-- The database materializes an acknowledged order insert into a full
row, assigning a fresh id and creation timestamp; `status_updated_at` is
null until a status update stamps it.  This is the `payload.new` the
realtime channel echoes back to subscribers. -/
def dbRowOfInsert (row : OrderInsertRow) (id createdAt : String) : DbOrderRow :=
  { id := id
    customer_details := row.customer_details
    items := row.items
    total := row.total
    payment_method := row.payment_method
    created_at := createdAt
    status := row.status
    status_updated_at := none }

/-- The orders INSERT branch of the realtime subscription handler
(`src/App.tsx` lines 109-113): maps `payload.new` and prepends the result
to both `orders` and `notifications`, with no id check. -/
def handleOrderInsert (payloadNew : DbOrderRow) (st : AppState) : AppState :=
  let newOrder := mapOrderFromDb payloadNew
  { st with
    orders := newOrder :: st.orders
    notifications := newOrder :: st.notifications }

/-- The food_items INSERT branch of the realtime subscription handler
(`src/App.tsx` lines 124-133): maps `payload.new`, returns the previous
list unchanged when an item with the same id is already present, and
otherwise prepends the new item. -/
def handleFoodItemInsert (payloadNew : DbFoodRow) (st : AppState) : AppState :=
  let newItem := mapFoodItemFromDb payloadNew
  if st.foodItems.any (fun item => item.id == newItem.id) then st
  else { st with foodItems := newItem :: st.foodItems }

/-- The local-state effect of `updateOrderStatus` on the success branch
(`src/App.tsx` line 239): replace the status of every order with the
matching id, keeping every other field and every other order. -/
def updateOrderStatus (orderId : String) (status : OrderStatus)
    (prev : List Order) : List Order :=
  prev.map (fun o => if o.id == orderId then { o with status := status } else o)

/-- `clearNotifications` (`src/App.tsx` lines 243-245):
`setNotifications([])`. -/
def clearNotifications (st : AppState) : AppState :=
  { st with notifications := [] }

/-! Concrete sample data used for witnesses and counterexample states. -/

/-- A sample food item with the given id and price; the remaining fields
are irrelevant to the claims. -/
def exFood (id : String) (price : Int) : FoodItem :=
  { id := id
    name := "Sample"
    description := ""
    size := "M"
    price := price
    image1Url := ""
    image2Url := ""
    videoUrl := none }

/-- The cart from the spec's total example: price 299 at quantity 1 and
price 149 at quantity 2. -/
def exCartC6 : List CartItem :=
  [{ toFoodItem := exFood "a" 299, quantity := 1 },
   { toFoodItem := exFood "b" 149, quantity := 2 }]

/-- The cart from the spec's removal scenario: one entry with id "1",
price 299, quantity 2. -/
def exCartScenario : List CartItem :=
  [{ toFoodItem := exFood "1" 299, quantity := 2 }]

/-- A sample customer. -/
def exCustomer : CustomerDetails :=
  { name := "Asha", phone := "9000000000", address := "12 Lane", email := none }

/-- A sample orders-table row with id "o1". -/
def exDbOrderRow : DbOrderRow :=
  { id := "o1"
    customer_details := exCustomer
    items := exCartScenario
    total := 598
    payment_method := PaymentMethod.CashOnDelivery
    created_at := "2024-01-01T00:00:00Z"
    status := OrderStatus.Pending
    status_updated_at := none }

/-- A state that already holds order "o1" locally, in both the orders
collection and the notification feed (the order-placing client after its
own insert event has been processed once). -/
def exStateWithOrder : AppState :=
  { loading := false
    foodItems := []
    cart := []
    orders := [mapOrderFromDb exDbOrderRow]
    notifications := [mapOrderFromDb exDbOrderRow] }

/-! ## Helper lemmas -/

/-- A fold of `+` over a mapped value equals the initial value plus the
sum of the mapped list. -/
theorem foldl_add_map (f : CartItem → Int) (c : List CartItem) :
    ∀ a : Int, c.foldl (fun sum x => sum + f x) a = a + (c.map f).sum := by
  induction c with
  | nil => intro a; simp
  | cons x xs ih =>
      intro a
      simp only [List.foldl_cons, List.map_cons, List.sum_cons, ih]
      ring

/-! ## Claims -/

/-- C1: `placeOrder` is atomic with respect to cart clearing: when the
order write fails, the entire state (in particular the cart) retains its
pre-call contents; the cart is cleared exactly on the success branch. -/
theorem placeOrder_atomic (st : AppState) (customer : CustomerDetails)
    (paymentMethod : PaymentMethod) :
    (placeOrder customer paymentMethod false st).1 = st ∧
    (placeOrder customer paymentMethod false st).1.cart = st.cart ∧
    (placeOrder customer paymentMethod true st).1.cart = [] := by
  refine ⟨rfl, rfl, rfl⟩

/-- C6: the derived cart total equals the exact sum of price × quantity
over all entries; on the spec's example cart it is 597, and after
`updateCartQuantity` removes the last entry it is 0. -/
theorem cartTotal_eq_sum :
    (∀ cart : List CartItem,
        cartTotal cart = (cart.map (fun item => item.price * item.quantity)).sum) ∧
    cartTotal exCartC6 = 597 ∧
    cartTotal (updateCartQuantity "1" 0 exCartScenario) = 0 := by
  refine ⟨?_, by decide, by decide⟩
  intro cart
  simpa using foldl_add_map (fun item => item.price * item.quantity) cart 0

/-- C9: `clearNotifications` empties the notification feed
unconditionally and leaves the orders collection (hence its length and
contents) exactly unchanged. -/
theorem clearNotifications_spec (st : AppState) :
    (clearNotifications st).notifications = [] ∧
    (clearNotifications st).orders = st.orders ∧
    (clearNotifications st).orders.length = st.orders.length := by
  refine ⟨rfl, rfl, rfl⟩

/-- C10: on a successful write, the `placeOrder` call itself empties the
cart and modifies nothing else: foodItems, orders, notifications (and the
loading flag) are untouched by the call. -/
theorem placeOrder_frame (st : AppState) (customer : CustomerDetails)
    (paymentMethod : PaymentMethod) :
    (placeOrder customer paymentMethod true st).1.cart = [] ∧
    (placeOrder customer paymentMethod true st).1.foodItems = st.foodItems ∧
    (placeOrder customer paymentMethod true st).1.orders = st.orders ∧
    (placeOrder customer paymentMethod true st).1.notifications = st.notifications ∧
    (placeOrder customer paymentMethod true st).1.loading = st.loading := by
  refine ⟨rfl, rfl, rfl, rfl, rfl⟩

/-- C7: after a successful `placeOrder` whose acknowledged row is echoed
back through the realtime orders INSERT handler, the new order sits at
the head of both the orders collection and the notification feed, with
status Pending and total equal to the pre-call cart total. -/
theorem placeOrder_success_head (st : AppState) (customer : CustomerDetails)
    (paymentMethod : PaymentMethod) (oid createdAt : String) :
    (handleOrderInsert
        (dbRowOfInsert (placeOrderRow st.cart customer paymentMethod) oid createdAt)
        (placeOrder customer paymentMethod true st).1).orders.head? =
      some (mapOrderFromDb
        (dbRowOfInsert (placeOrderRow st.cart customer paymentMethod) oid createdAt)) ∧
    (handleOrderInsert
        (dbRowOfInsert (placeOrderRow st.cart customer paymentMethod) oid createdAt)
        (placeOrder customer paymentMethod true st).1).notifications.head? =
      some (mapOrderFromDb
        (dbRowOfInsert (placeOrderRow st.cart customer paymentMethod) oid createdAt)) ∧
    (mapOrderFromDb
        (dbRowOfInsert (placeOrderRow st.cart customer paymentMethod) oid createdAt)).status =
      OrderStatus.Pending ∧
    (mapOrderFromDb
        (dbRowOfInsert (placeOrderRow st.cart customer paymentMethod) oid createdAt)).total =
      cartTotal st.cart := by
  refine ⟨rfl, rfl, rfl, rfl⟩

/-- C2 evidence: the orders INSERT handler performs no id check, so when
the insert event for order "o1" reaches a client that already holds
"o1", both the orders collection and the notification feed end up with
two entries for that id. -/
theorem handleOrderInsert_duplicates :
    ((handleOrderInsert exDbOrderRow exStateWithOrder).orders.filter
        (fun o => o.id == "o1")).length = 2 ∧
    ((handleOrderInsert exDbOrderRow exStateWithOrder).notifications.filter
        (fun o => o.id == "o1")).length = 2 := by
  refine ⟨by decide, by decide⟩

/-- A sample food_items-table row with id "f1". -/
def exDbFoodRow : DbFoodRow :=
  { id := "f1"
    name := "Pav Bhaji"
    description := ""
    size := "M"
    price := 120
    image1_url := ""
    image2_url := ""
    video_url := none }

/-- A state that already holds food item "f1". -/
def exStateWithFood : AppState :=
  { loading := false
    foodItems := [mapFoodItemFromDb exDbFoodRow]
    cart := []
    orders := []
    notifications := [] }

/-- The empty application state. -/
def exEmptyState : AppState :=
  { loading := false
    foodItems := []
    cart := []
    orders := []
    notifications := [] }

/-- C8: catalog synchronization is idempotent by id: when an item with
the incoming id is already held, the event leaves the state (hence the
item count) unchanged; otherwise the incoming item is prepended. -/
theorem handleFoodItemInsert_idempotent (st : AppState) (row : DbFoodRow) :
    ((∃ it ∈ st.foodItems, it.id = (mapFoodItemFromDb row).id) →
        handleFoodItemInsert row st = st) ∧
    ((∀ it ∈ st.foodItems, it.id ≠ (mapFoodItemFromDb row).id) →
        (handleFoodItemInsert row st).foodItems =
          mapFoodItemFromDb row :: st.foodItems) := by
  constructor
  · rintro ⟨it, hmem, hid⟩
    have hany : st.foodItems.any
        (fun item => item.id == (mapFoodItemFromDb row).id) = true := by
      rw [List.any_eq_true]
      exact ⟨it, hmem, by simp [hid]⟩
    simp [handleFoodItemInsert, hany]
  · intro h
    have hany : st.foodItems.any
        (fun item => item.id == (mapFoodItemFromDb row).id) = false := by
      rw [List.any_eq_false]
      intro it hmem
      simp [h it hmem]
    simp [handleFoodItemInsert, hany]

/-- C8 witness: on a state already holding item "f1" the event is a
no-op; on the empty state the item is prepended. -/
theorem handleFoodItemInsert_idempotent_witness :
    handleFoodItemInsert exDbFoodRow exStateWithFood = exStateWithFood ∧
    (handleFoodItemInsert exDbFoodRow exEmptyState).foodItems =
      mapFoodItemFromDb exDbFoodRow :: exEmptyState.foodItems :=
  ⟨(handleFoodItemInsert_idempotent exStateWithFood exDbFoodRow).1
      ⟨mapFoodItemFromDb exDbFoodRow, by simp [exStateWithFood], rfl⟩,
   (handleFoodItemInsert_idempotent exEmptyState exDbFoodRow).2
      (by intro it hmem; simp [exEmptyState] at hmem)⟩

/-- The sample order with id "o1", as mapped from the database row. -/
def exOrderA : Order := mapOrderFromDb exDbOrderRow

/-- A second sample order, with id "o2". -/
def exOrderB : Order := mapOrderFromDb { exDbOrderRow with id := "o2" }

/-- C3: `updateOrderStatus` preserves the list length; each position
holds the old order with only its status replaced when its id matches,
and the identical old order otherwise (so every non-status field of every
order is unchanged); when no held order has the id, the whole collection
is unchanged. -/
theorem updateOrderStatus_frame (orders : List Order) (orderId : String)
    (newStatus : OrderStatus) :
    (updateOrderStatus orderId newStatus orders).length = orders.length ∧
    (∀ (i : Nat) (o : Order), orders[i]? = some o →
        (updateOrderStatus orderId newStatus orders)[i]? =
          some (if o.id = orderId then { o with status := newStatus } else o)) ∧
    (∀ (i : Nat) (o o' : Order), orders[i]? = some o →
        (updateOrderStatus orderId newStatus orders)[i]? = some o' →
        o'.id = o.id ∧ o'.customer = o.customer ∧ o'.items = o.items ∧
        o'.total = o.total ∧ o'.paymentMethod = o.paymentMethod ∧
        o'.timestamp = o.timestamp ∧ o'.status_updated_at = o.status_updated_at) ∧
    ((∀ o ∈ orders, o.id ≠ orderId) →
        updateOrderStatus orderId newStatus orders = orders) := by
  have hpos : ∀ (i : Nat) (o : Order), orders[i]? = some o →
      (updateOrderStatus orderId newStatus orders)[i]? =
        some (if o.id = orderId then { o with status := newStatus } else o) := by
    intro i o hio
    rw [updateOrderStatus, List.getElem?_map, hio, Option.map_some']
    by_cases hid : o.id = orderId
    · simp [hid]
    · simp [hid]
  refine ⟨by simp [updateOrderStatus], hpos, ?_, ?_⟩
  · intro i o o' hio hio'
    rw [hpos i o hio] at hio'
    have ho' : o' = if o.id = orderId then { o with status := newStatus } else o :=
      (Option.some.injEq _ _ ▸ hio').symm
    by_cases hid : o.id = orderId
    · rw [ho', if_pos hid]
      exact ⟨rfl, rfl, rfl, rfl, rfl, rfl, rfl⟩
    · rw [ho', if_neg hid]
      exact ⟨rfl, rfl, rfl, rfl, rfl, rfl, rfl⟩
  · intro h
    rw [updateOrderStatus]
    conv_rhs => rw [show orders = orders.map id from (List.map_id orders).symm]
    apply List.map_congr_left
    intro o ho
    simp [h o ho]

/-- C3 witness: on the two-order collection [o1, o2], updating "o1" to
Delivered rewrites position 0 through the matching branch and leaves the
collection untouched when the id "zzz" is absent. -/
theorem updateOrderStatus_frame_witness :
    (updateOrderStatus "o1" OrderStatus.Delivered [exOrderA, exOrderB])[0]? =
      some (if exOrderA.id = "o1"
        then { exOrderA with status := OrderStatus.Delivered } else exOrderA) ∧
    updateOrderStatus "zzz" OrderStatus.Delivered [exOrderA, exOrderB] =
      [exOrderA, exOrderB] :=
  ⟨(updateOrderStatus_frame [exOrderA, exOrderB] "o1" OrderStatus.Delivered).2.1
      0 exOrderA rfl,
   (updateOrderStatus_frame [exOrderA, exOrderB] "zzz" OrderStatus.Delivered).2.2.2
      (by decide)⟩

/-- Mapping a function that fixes every element of a list leaves the list
unchanged. -/
theorem map_eq_self_of {α : Type} (f : α → α) (l : List α)
    (h : ∀ a ∈ l, f a = a) : l.map f = l := by
  induction l with
  | nil => rfl
  | cons x xs ih =>
      rw [List.map_cons, h x (List.mem_cons_self x xs),
        ih (fun a ha => h a (List.mem_cons_of_mem x ha))]

/-- When no cart entry carries the item's id, the cart lookup inside
`addToCart` fails. -/
theorem find?_id_eq_none (item : FoodItem) (c : List CartItem)
    (h : ∀ x ∈ c, x.id ≠ item.id) :
    c.find? (fun cartItem => cartItem.id == item.id) = none := by
  rw [List.find?_eq_none]
  intro x hx
  simp [h x hx]

/-- `find?` over a list whose prefix rejects the predicate and whose last
element satisfies it returns that last element. -/
theorem find?_append_singleton (c : List CartItem) (e : CartItem)
    (p : CartItem → Bool) (hc : ∀ x ∈ c, p x = false) (he : p e = true) :
    (c ++ [e]).find? p = some e := by
  induction c with
  | nil => simp [List.find?, he]
  | cons x xs ih =>
      have hx : p x = false := hc x (List.mem_cons_self x xs)
      rw [List.cons_append, List.find?_cons_of_neg _ (by simp [hx])]
      exact ih (fun y hy => hc y (List.mem_cons_of_mem x hy))

/-- `addToCart` on a cart without the item's id appends a fresh entry of
quantity 1. -/
theorem addToCart_of_absent (item : FoodItem) (c : List CartItem)
    (h : ∀ x ∈ c, x.id ≠ item.id) :
    addToCart item c = c ++ [{ toFoodItem := item, quantity := 1 }] := by
  rw [addToCart, find?_id_eq_none item c h]
  rfl

/-- `addToCart` on a cart whose only entry with the item's id sits at the
end increments that entry's quantity in place. -/
theorem addToCart_append_same (item : FoodItem) (c : List CartItem) (k : Int)
    (h : ∀ x ∈ c, x.id ≠ item.id) :
    addToCart item (c ++ [{ toFoodItem := item, quantity := k }]) =
      c ++ [{ toFoodItem := item, quantity := k + 1 }] := by
  have he : (({ toFoodItem := item, quantity := k } : CartItem).id == item.id) = true := by
    simp
  have hfind := find?_append_singleton c { toFoodItem := item, quantity := k }
      (fun cartItem => cartItem.id == item.id) (fun x hx => by simp [h x hx]) he
  rw [addToCart, hfind]
  rw [show (some ({ toFoodItem := item, quantity := k } : CartItem)).isSome = true from rfl,
    if_pos rfl, List.map_append]
  congr 1
  · exact map_eq_self_of _ _ (fun x hx => by simp [h x hx])
  · simp

/-- Iterating `addToCart` n+1 times from a cart without the item's id
yields the original cart with a single appended entry of quantity n+1. -/
theorem addToCart_iterate_eq (item : FoodItem) (c : List CartItem)
    (h : ∀ x ∈ c, x.id ≠ item.id) (n : Nat) :
    (addToCart item)^[n + 1] c =
      c ++ [{ toFoodItem := item, quantity := ((n : Int) + 1) }] := by
  induction n with
  | zero => simpa using addToCart_of_absent item c h
  | succ m ih =>
      rw [Function.iterate_succ_apply', ih,
        addToCart_append_same item c ((m : Int) + 1) h]
      have hcast : ((m : Int) + 1) + 1 = (((m + 1 : Nat) : Int) + 1) := by
        push_cast
        ring
      rw [hcast]

/-- C4: any positive number n of `addToCart` calls with the same item,
starting from a cart that holds no entry for that item's id, leaves the
cart with exactly one entry for that id, whose quantity is n — repeated
adds never create duplicate rows. -/
theorem addToCart_repeated (item : FoodItem) (c : List CartItem) (n : Nat)
    (h : ∀ x ∈ c, x.id ≠ item.id) (hn : 0 < n) :
    ((addToCart item)^[n] c).filter (fun x => x.id == item.id) =
      [{ toFoodItem := item, quantity := (n : Int) }] := by
  cases n with
  | zero => exact absurd hn (by simp)
  | succ m =>
      rw [addToCart_iterate_eq item c h m, List.filter_append]
      have h1 : c.filter (fun x => x.id == item.id) = [] := by
        rw [List.filter_eq_nil_iff]
        intro x hx
        simp [h x hx]
      rw [h1, List.nil_append]
      simp [Nat.cast_succ]

/-- C4 witness: three adds of the sample item into the empty cart leave a
single entry of quantity 3. -/
theorem addToCart_repeated_witness :
    (∀ x ∈ ([] : List CartItem), x.id ≠ (exFood "a" 299).id) ∧ 0 < 3 ∧
    ((addToCart (exFood "a" 299))^[3] []).filter
        (fun x => x.id == (exFood "a" 299).id) =
      [{ toFoodItem := exFood "a" 299, quantity := ((3 : Nat) : Int) }] :=
  ⟨by simp, by decide, addToCart_repeated (exFood "a" 299) [] 3 (by simp) (by decide)⟩

/-- C5: starting from a cart whose entries all have quantity ≥ 1, every
cart operation preserves that invariant, and `updateCartQuantity` with a
non-positive quantity removes the targeted id entirely. -/
theorem cart_quantity_invariant (c : List CartItem)
    (h : ∀ x ∈ c, 1 ≤ x.quantity) :
    (∀ item : FoodItem, ∀ x ∈ addToCart item c, 1 ≤ x.quantity) ∧
    (∀ (itemId : String) (q : Int), ∀ x ∈ updateCartQuantity itemId q c,
        1 ≤ x.quantity) ∧
    (∀ itemId : String, ∀ x ∈ removeFromCart itemId c, 1 ≤ x.quantity) ∧
    (∀ x ∈ clearCart c, 1 ≤ x.quantity) ∧
    (∀ (itemId : String) (q : Int), q ≤ 0 →
        ∀ x ∈ updateCartQuantity itemId q c, x.id ≠ itemId) := by
  refine ⟨?_, ?_, ?_, ?_, ?_⟩
  · intro item x hx
    rw [addToCart] at hx
    by_cases hfind : (c.find? (fun cartItem => cartItem.id == item.id)).isSome = true
    · rw [if_pos hfind] at hx
      obtain ⟨y, hy, rfl⟩ := List.mem_map.mp hx
      by_cases hid : (y.id == item.id) = true
      · rw [if_pos hid]
        have hq := h y hy
        change 1 ≤ y.quantity + 1
        omega
      · rw [if_neg hid]
        exact h y hy
    · rw [if_neg hfind] at hx
      rcases List.mem_append.mp hx with hx | hx
      · exact h x hx
      · have hx' : x = { toFoodItem := item, quantity := 1 } := by simpa using hx
        rw [hx']
  · intro itemId q x hx
    rw [updateCartQuantity] at hx
    have hpos := (List.mem_filter.mp hx).2
    simp only [decide_eq_true_eq] at hpos
    omega
  · intro itemId x hx
    rw [removeFromCart] at hx
    exact h x (List.mem_filter.mp hx).1
  · intro x hx
    simp [clearCart] at hx
  · intro itemId q hq x hx
    rw [updateCartQuantity] at hx
    obtain ⟨hmem, hpos⟩ := List.mem_filter.mp hx
    simp only [decide_eq_true_eq] at hpos
    obtain ⟨y, hy, heq⟩ := List.mem_map.mp hmem
    by_cases hid : (y.id == itemId) = true
    · rw [if_pos hid] at heq
      rw [← heq] at hpos
      change (0 : Int) < q at hpos
      omega
    · rw [if_neg hid] at heq
      rw [← heq]
      intro hcontra
      exact hid (by simp [hcontra])

/-- C5 witness: the example cart satisfies the invariant, and the entry
produced by adding the id-"a" item again has quantity 2 ≥ 1. -/
theorem cart_quantity_invariant_witness :
    (∀ x ∈ exCartC6, 1 ≤ x.quantity) ∧
    1 ≤ ({ toFoodItem := exFood "a" 299, quantity := 2 } : CartItem).quantity :=
  ⟨by decide,
   (cart_quantity_invariant exCartC6 (by decide)).1 (exFood "a" 299)
     { toFoodItem := exFood "a" 299, quantity := 2 } (by decide)⟩

end AreaBites
